import Mathlib

set_option linter.unusedVariables false

/- Verification development for the Agent Readiness Scorer engine (scorer.ts).

   The engine is embedded shallowly:
   * The HTTP primitive is an explicit parameter (a `Fetcher`): for a URL, a
     timeout and an attempt index it yields either a completed response
     (body and status) or a failure (exception / timeout).  One scoring run
     fetches each crawl URL at most once, so a function of the URL captures
     every behavior of the network.
   * The link extractor (cheerio-based `findLinks`) is an explicit parameter
     (a `LinkExtractor`): for a page body and a base URL it yields the list
     of resolved absolute link hrefs.  Its output is adversarial here, which
     covers every possible page content.
   * WHATWG URL parsing is modelled by `parseUrl` for the URL shapes the
     engine constructs and consumes (scheme://host/path, http or https, no
     userinfo, port kept as part of the host, query and fragment kept as part
     of the path).  Hosts are not case-normalized: the engine only compares
     hostnames it constructed itself, which are lowercase in practice.
   * JavaScript timing (batches of 5, 300ms pauses, backoff delays) affects
     only speed, never which pages are recorded, so batches are modelled as
     sequential processing in request order.
   * `id` (randomUUID) and `timestamp` (clock) are environment-supplied and
     carry no scored content; they are omitted from the result record.
   * JS numbers holding scores are always non-negative integers in this
     program, so scores are `Nat`.
-/

/-! ## Data model (scorer.ts interfaces) -/

inductive FrictionType where
  | voluntary
  | regulatory
  | none
deriving Repr, DecidableEq, Inhabited

structure SubScore where
  name : String
  maxPoints : Nat
  score : Nat
  findings : List String
  frictionType : Option FrictionType
  frictionNote : Option String
deriving Repr, DecidableEq, Inhabited

structure CategoryScore where
  name : String
  description : String
  maxPoints : Nat
  score : Nat
  subScores : List SubScore
deriving Repr, DecidableEq, Inhabited

structure FrictionSummary where
  voluntaryFriction : List String
  regulatoryFriction : List String
  agentReadyPending : Bool
deriving Repr, DecidableEq, Inhabited

/-- Result record of one scoring run.  The source also carries `id` and
`timestamp`; both come from the environment (UUID source, clock) and are
omitted from the model. -/
structure ScoringResult where
  url : String
  totalScore : Nat
  maxScore : Nat
  grade : String
  categories : List CategoryScore
  frictionSummary : FrictionSummary
  crawledPages : List String
  errors : List String
deriving Repr, DecidableEq, Inhabited

/-- Outcome of one completed HTTP response: body text and status code. -/
structure FetchResult where
  html : String
  status : Nat
deriving Repr, DecidableEq, Inhabited

/-- Behavior of the HTTP primitive: URL, timeout, attempt index to an
optional completed response (`none` models a thrown error / timeout /
abort for that attempt). -/
abbrev Fetcher := String → Nat → Nat → Option FetchResult

/-- Behavior of the link extractor `findLinks(html, baseUrl)`: resolved
absolute hrefs found in a page body. -/
abbrev LinkExtractor := String → String → List String

inductive UrlError where
  | invalidUrl
  | notAFullUrl
deriving Repr, DecidableEq, Inhabited

/-- Parsed URL: scheme, authority and path (path includes any query or
fragment; the engine never constructs those). -/
structure Url where
  scheme : String
  host : String
  path : String
deriving Repr, DecidableEq, Inhabited

def exceptDecEq {e a : Type} [DecidableEq e] [DecidableEq a] : DecidableEq (Except e a)
  | .error x, .error y =>
    if h : x = y then .isTrue (by rw [h]) else .isFalse (by intro hc; cases hc; exact h rfl)
  | .error _, .ok _ => .isFalse (by intro hc; cases hc)
  | .ok _, .error _ => .isFalse (by intro hc; cases hc)
  | .ok x, .ok y =>
    if h : x = y then .isTrue (by rw [h]) else .isFalse (by intro hc; cases hc; exact h rfl)

instance {e a : Type} [DecidableEq e] [DecidableEq a] : DecidableEq (Except e a) := exceptDecEq

/-! ## String helpers (models of the JS string operations used) -/

/-- Model of JS `String.prototype.startsWith`. -/
def strStartsWith (s p : String) : Bool := p.toList.isPrefixOf s.toList

/-- Model of JS `String.prototype.endsWith`. -/
def strEndsWith (s p : String) : Bool := p.toList.isSuffixOf s.toList

/-- Model of JS `s.slice(n)` / dropping the first `n` characters. -/
def strDrop (s : String) (n : Nat) : String := String.mk (s.toList.drop n)

/-- Character membership in a string (JS `s.includes(c)` for one char). -/
def strContainsChar (s : String) (c : Char) : Bool := s.toList.contains c

/-- Model of JS `String.prototype.toLowerCase` (character-wise lowering). -/
def strToLower (s : String) : String := String.mk (s.toList.map Char.toLower)

def containsSubstrCore (sub : List Char) : List Char → Bool
  | [] => sub.isEmpty
  | c :: rest => sub.isPrefixOf (c :: rest) || containsSubstrCore sub rest

/-- Model of JS `s.includes(sub)`. -/
def containsSubstr (s sub : String) : Bool := containsSubstrCore sub.toList s.toList

/-- Model of `pathname.replace(/\/$/, "")`: drops one trailing slash. -/
def dropTrailingSlash (s : String) : String :=
  if strEndsWith s "/" then String.mk s.toList.dropLast else s

/-! ## URL parsing and normalization (scoreUrl lines 381-399) -/

/-- A character that does not terminate the authority of a WHATWG URL: the
host runs to the first `/`, `?` or `#`. -/
def notHostEnd (c : Char) : Bool := c != '/' && c != '?' && c != '#'

/-- Model of `new URL(s)` for the http(s) URL shapes this engine builds and
consumes.  The authority runs to the first `/`, `?` or `#` and is lowercased,
as WHATWG host canonicalization does; an empty authority is a parse failure;
a missing path is `/` (matching `pathname`); otherwise the remainder is kept
in `path` (including any query or fragment text, which the engine never
appends to the URLs it builds itself).  Non-http(s) schemes are rejected;
the engine itself only produces http(s) URLs, and rejected links are also
dropped by the same-domain filter in the source. -/
def parseUrl (s : String) : Option Url :=
  let afterScheme : Option (String × List Char) :=
    if strStartsWith s "https://" then some ("https", s.toList.drop 8)
    else if strStartsWith s "http://" then some ("http", s.toList.drop 7)
    else none
  match afterScheme with
  | none => none
  | some (scheme, rest) =>
    let hostChars := rest.takeWhile notHostEnd
    let pathChars := rest.dropWhile notHostEnd
    if hostChars.isEmpty then none
    else some { scheme := scheme, host := strToLower (String.mk hostChars),
                path := if pathChars.isEmpty then "/" else String.mk pathChars }

/-- Origin of a parsed URL (`scheme://host`, no trailing slash). -/
def Url.origin (u : Url) : String := u.scheme ++ "://" ++ u.host

/-- URL validation and normalization at the top of `scoreUrl`:
prefix `https://` when the input does not start with `http`; parse
(failure is `InvalidUrl`); require a dot in the hostname (`NotAFullUrl`);
strip one leading `www.` from the host. -/
def normalizeBase (input : String) : Except UrlError Url :=
  let withScheme := if strStartsWith input "http" then input else "https://" ++ input
  match parseUrl withScheme with
  | none => .error UrlError.invalidUrl
  | some u =>
    if !strContainsChar u.host '.' then .error UrlError.notAFullUrl
    else if strStartsWith u.host "www." then .ok { u with host := strDrop u.host 4 }
    else .ok u

/-! ## Fetcher (fetchPage, lines 336-360) -/

/-- Model of `fetchPage(url, timeout, retries)`: attempts `0..retries` are
tried in order and the first completed response wins; when every attempt
fails the result is `none`.  The User-Agent and Accept headers and the
backoff delays do not influence the modelled outcome beyond the behavior
already captured by the `Fetcher` parameter. -/
def fetchPage (net : Fetcher) (url : String) (timeout retries : Nat) : Option FetchResult :=
  (List.range (retries + 1)).foldl
    (fun acc attempt =>
      match acc with
      | some r => some r
      | none => net url timeout attempt)
    none

/-! ## Corpus text search (textContains, line 362) -/

/-- Model of `textContains`: the keywords whose lowercase form occurs in the
lowercased text. -/
def textContains (text : String) (keywords : List String) : List String :=
  let lower := strToLower text
  keywords.filter (fun k => containsSubstr lower (strToLower k))

/-! ## Relevance filter (isRelevantUrl, lines 322-328)

The three regexes are compiled to explicit word-with-boundary searches:
JS `\b` separates a word char (`[A-Za-z0-9_]`) from a non-word char. -/

def isWordChar (c : Char) : Bool := c.isAlphanum || c == '_'

def boundaryBefore : Option Char → Bool
  | Option.none => true
  | some c => !isWordChar c

def boundaryAfterList : List Char → Bool
  | [] => true
  | c :: _ => !isWordChar c

def containsWordCore (w : List Char) : List Char → Option Char → Bool
  | [], prev => boundaryBefore prev && w.isPrefixOf [] && true
  | c :: rest, prev =>
    (boundaryBefore prev && w.isPrefixOf (c :: rest) &&
      boundaryAfterList ((c :: rest).drop w.length)) ||
    containsWordCore w rest (some c)

/-- Occurrence of `w` in `s` with `\b` on both sides. -/
def containsWord (s : String) (w : String) : Bool :=
  containsWordCore w.toList s.toList Option.none

def containsSlashWordCore (w : List Char) : List Char → Bool
  | [] => false
  | c :: rest =>
    (c == '/' && w.isPrefixOf rest && boundaryAfterList (rest.drop w.length)) ||
    containsSlashWordCore w rest

/-- Occurrence of `/` immediately followed by `w` with `\b` after (the
non-product path-segment regex). -/
def containsSlashWord (s : String) (w : String) : Bool :=
  containsSlashWordCore w.toList s.toList

/-- Extensions of `/\.(png|jpg|...)$/i`. -/
def MEDIA_EXTENSIONS : List String :=
  ["png", "jpg", "jpeg", "gif", "svg", "css", "js", "woff", "ico", "pdf", "mp4", "webm"]

/-- Segments of `/\/(blog|press|...)\b/i`. -/
def SKIP_SEGMENTS : List String :=
  ["blog", "press", "news", "careers", "jobs", "about-us", "team", "contact-us",
   "events", "podcast", "webinar"]

/-- Word alternatives of the nine RELEVANT_PATTERNS regexes, lowercased;
`docs?` becomes doc / docs, `get-?started` becomes getstarted / get-started,
and similarly for `sign-?up` and `quick-?start`. -/
def RELEVANT_PATTERNS : List (List String) :=
  [["api", "doc", "docs", "documentation", "developer", "reference", "sdk"],
   ["pric", "plan", "billing", "subscription", "cost"],
   ["terms", "tos", "legal", "privacy", "policy", "compliance"],
   ["integrat", "plugin", "marketplace", "partner", "connect"],
   ["security", "sla", "status", "uptime", "trust"],
   ["sandbox", "playground", "test", "demo", "trial", "getstarted", "get-started"],
   ["signup", "sign-up", "register", "onboard", "quickstart", "quick-start"],
   ["openapi", "swagger", "graphql", "rest", "webhook"],
   ["kyc", "identity", "verif", "aml", "comply"]]

/-- Model of `isRelevantUrl`: lowercased pathname must avoid the media
extensions and the non-product segments and match at least one topic
pattern.  The source never feeds it an unparseable URL; unparseable means
not relevant here. -/
def isRelevantUrl (url : String) : Bool :=
  match parseUrl url with
  | none => false
  | some u =>
    let path := strToLower u.path
    if MEDIA_EXTENSIONS.any (fun e => strEndsWith path ("." ++ e)) then false
    else if SKIP_SEGMENTS.any (fun w => containsSlashWord path w) then false
    else RELEVANT_PATTERNS.any (fun g => g.any (fun w => containsWord path w))

/-! ## Crawl frontier (scoreUrl lines 400-479) -/

/-- Seed paths always tried on the main origin. -/
def SEED_PATHS : List String :=
  ["", "/docs", "/api", "/pricing", "/developers", "/developer",
   "/api-docs", "/documentation", "/swagger", "/openapi",
   "/terms", "/tos", "/terms-of-service", "/legal",
   "/sla", "/status", "/security",
   "/sandbox", "/playground", "/test",
   "/integrations", "/plugins", "/marketplace"]

/-- Common infrastructure subdomain prefixes (Phase 0). -/
def SUBDOMAIN_PREFIXES : List String := ["docs", "developer", "developers", "api", "status"]

def MAX_CRAWL_PAGES : Nat := 30

/-- Crawl state: the Page map (an insertion-ordered key/value list with
unique keys, mirroring a JS Map) and the ordered list of successfully
fetched URLs. -/
structure CrawlSt where
  pages : List (String × String)
  crawledPages : List String
deriving Repr, DecidableEq, Inhabited

/-- Model of `Map.set`: replace in place when the key exists, append
otherwise. -/
def setKV (m : List (String × String)) (k v : String) : List (String × String) :=
  if m.any (fun p => p.1 == k) then m.map (fun p => if p.1 == k then (k, v) else p)
  else m ++ [(k, v)]

/-- Model of `Map.has`. -/
def hasKey (m : List (String × String)) (k : String) : Bool :=
  m.any (fun p => p.1 == k)

/-- First-occurrence deduplication (JS Set spread preserves first
occurrences; the seed filter with the `visited` set does the same). -/
def dedupKeepFirst (l : List String) : List String :=
  l.foldl (fun acc x => if acc.contains x then acc else acc ++ [x]) []

/-- All Phase 1 seed URLs: seed paths on the origin plus the Phase 0
subdomain roots. -/
def allSeedsFor (origin baseDomain : String) : List String :=
  SEED_PATHS.map (fun p => origin ++ p) ++
    SUBDOMAIN_PREFIXES.map (fun sub => "https://" ++ sub ++ "." ++ baseDomain)

/-- Seeds after the `visited`-based duplicate filter; the `visited` set
after Phase 1 holds exactly these URLs. -/
def uniqueSeedsFor (origin baseDomain : String) : List String :=
  dedupKeepFirst (allSeedsFor origin baseDomain)

/-- Pathname of a crawl URL (`new URL(u).pathname || "/"`).  The source
only applies this to URLs it constructed, which always reparse; the
identity fallback is unreachable there. -/
def urlPathOf (u : String) : String :=
  match parseUrl u with
  | some p => p.path
  | none => u

/-- One Phase 1 fetch: a success with status below 400 is recorded, keyed
by pathname when the URL string starts with the origin and by the full URL
otherwise. -/
def phase1Step (net : Fetcher) (origin : String) (st : CrawlSt) (u : String) : CrawlSt :=
  match fetchPage net u 12000 2 with
  | some r =>
    if r.status < 400 then
      { pages := setKV st.pages (if strStartsWith u origin then urlPathOf u else u) r.html,
        crawledPages := st.crawledPages ++ [u] }
    else st
  | none => st

/-- Phase 1: fetch every unique seed.  The 5-wide batches and 300ms pauses
of the source only affect timing, so the batch results are folded in
request order. -/
def phase1 (net : Fetcher) (origin : String) (seeds : List String) (st : CrawlSt) : CrawlSt :=
  seeds.foldl (phase1Step net origin) st

def phase1Result (net : Fetcher) (origin baseDomain : String) : CrawlSt :=
  phase1 net origin (uniqueSeedsFor origin baseDomain) { pages := [], crawledPages := [] }

/-- Phase 2 link discovery over the fetched pages: keep links whose
www-stripped host ends with the base domain, normalize away one trailing
slash, drop already-visited URLs, keep only relevant ones. -/
def discoverLinks (links : LinkExtractor) (origin baseDomain : String)
    (visited : List String) (pages : List (String × String)) : List String :=
  (pages.map (fun p => p.2)).flatMap (fun html =>
    (links html origin).filterMap (fun link =>
      match parseUrl link with
      | none => none
      | some parsed =>
        let linkDomain := if strStartsWith parsed.host "www." then strDrop parsed.host 4
                          else parsed.host
        if !strEndsWith linkDomain baseDomain then none
        else
          let normalized := parsed.origin ++ dropTrailingSlash parsed.path
          if visited.contains normalized then none
          else if isRelevantUrl normalized then some normalized
          else none))

/-- Deduplicated Phase 2 candidates, capped at `30 - pages.size` (the page
count after Phase 1 is at most 28, so the Nat subtraction matches the JS
slice bound). -/
def discoveredOf (net : Fetcher) (links : LinkExtractor) (origin baseDomain : String) :
    List String :=
  let st := phase1Result net origin baseDomain
  let cands := discoverLinks links origin baseDomain (uniqueSeedsFor origin baseDomain) st.pages
  (dedupKeepFirst cands).take (MAX_CRAWL_PAGES - st.pages.length)

/-- Phase 3: fetch the discovered candidates in order, recording successes
keyed by pathname, and stop as soon as the page map holds 30 entries.  The
per-batch loop guard and the per-result break of the source both reduce to
this per-URL size check. -/
def phase3 (net : Fetcher) : List String → CrawlSt → CrawlSt
  | [], st => st
  | u :: rest, st =>
    if MAX_CRAWL_PAGES ≤ st.pages.length then st
    else
      let st2 :=
        match fetchPage net u 12000 2 with
        | some r =>
          if r.status < 400 then
            { pages := setKV st.pages (urlPathOf u) r.html,
              crawledPages := st.crawledPages ++ [u] }
          else st
        | none => st
      phase3 net rest st2

/-- The whole crawl: Phase 1 seeds, Phase 2 discovery, Phase 3 crawl. -/
def runCrawl (net : Fetcher) (links : LinkExtractor) (origin baseDomain : String) : CrawlSt :=
  phase3 net (discoveredOf net links origin baseDomain) (phase1Result net origin baseDomain)

/-! ## Rubric evaluators (scorer.ts lines 489-749)

Each evaluator is a pure function of the lowercased page text, the
lowercased link text and the page map; `disc_metadata` additionally probes
the four well-known OpenAPI paths through the Fetcher. -/

def disc_api (allText allLinksText : String) (pages : List (String × String)) : SubScore :=
  let apiIndicators := textContains allText
    ["api documentation", "api reference", "api docs", "developer docs", "rest api", "graphql api"]
  let apiLinks := textContains allLinksText
    ["/api", "/docs", "/developer", "/reference", "/api-docs"]
  let s0 : SubScore := { name := "Public API with docs", maxPoints := 3, score := 0,
                         findings := [], frictionType := none, frictionNote := none }
  let s1 := if apiIndicators.length > 0 then
      { s0 with
        score := s0.score + 2
        findings := s0.findings ++ ["Found API doc references: " ++ String.intercalate ", " apiIndicators] }
    else s0
  let s2 := if apiLinks.length > 0 then
      { s1 with
        score := min 3 (s1.score + 1)
        findings := s1.findings ++ ["Found API-related links"] }
    else s1
  let s3 := if hasKey pages "/docs" || hasKey pages "/api" || hasKey pages "/api-docs" ||
               hasKey pages "/documentation" then
      { s2 with
        score := min 3 (s2.score + 1)
        findings := s2.findings ++ ["Dedicated docs/API page accessible"] }
    else s2
  if s3.score == 0 then
    { s3 with findings := s3.findings ++ ["No public API documentation detected"] }
  else s3

def disc_pricing (allText : String) (pages : List (String × String)) : SubScore :=
  let pricingPage := hasKey pages "/pricing"
  let pricingKeywords := textContains allText
    ["pricing", "price", "per month", "/mo", "free tier", "free plan", "pay as you go",
     "usage-based"]
  let structuredPricing := textContains allText
    ["application/ld+json", "schema.org/offer", "schema.org/product", "itemtype=\"http"]
  let s0 : SubScore := { name := "Machine-readable pricing", maxPoints := 3, score := 0,
                         findings := [], frictionType := none, frictionNote := none }
  let s1 := if pricingPage then
      { s0 with score := s0.score + 1, findings := s0.findings ++ ["Pricing page found"] }
    else s0
  let s2 := if pricingKeywords.length > 0 then
      { s1 with
        score := min 2 (s1.score + 1)
        findings := s1.findings ++ ["Pricing keywords: " ++ String.intercalate ", " (pricingKeywords.take 3)] }
    else s1
  let s3 := if structuredPricing.length > 0 then
      { s2 with
        score := 3
        findings := s2.findings ++ ["Structured pricing data (schema.org) detected"] }
    else s2
  if s3.score == 0 then
    { s3 with findings := s3.findings ++ ["No machine-readable pricing detected"] }
  else s3

def disc_directories (allText : String) : SubScore :=
  let dirKeywords := textContains allText
    ["rapidapi", "programmableweb", "api marketplace", "api directory", "agent directory",
     "mcp server", "agent protocol"]
  let s0 : SubScore := { name := "Listed in agent directories", maxPoints := 2, score := 0,
                         findings := [], frictionType := none, frictionNote := none }
  if dirKeywords.length > 0 then
    { s0 with
      score := min 2 dirKeywords.length
      findings := s0.findings ++ ["Directory mentions: " ++ String.intercalate ", " dirKeywords] }
  else
    { s0 with
      findings := s0.findings ++ ["No agent/API directory listings detected (hard to verify automatically)"] }

/-- Well-known machine-readable spec locations probed directly. -/
def OPENAPI_PROBE_PATHS : List String :=
  ["/openapi.json", "/swagger.json", "/api-docs/swagger.json", "/.well-known/openapi.json"]

/-- Source evaluator: the direct probes call `fetchPage(origin + p, 3000)`,
so the timeout is 3000ms and the retry count stays at the fetchPage default
of 2. -/
def disc_metadata (allText : String) (net : Fetcher) (origin : String) : SubScore :=
  let openapiIndicators := textContains allText
    ["openapi", "swagger", "api-spec", "openapi.json", "openapi.yaml", "swagger.json",
     "swagger.yaml", "redoc"]
  let s0 : SubScore := { name := "Structured metadata / OpenAPI spec", maxPoints := 2, score := 0,
                         findings := [], frictionType := none, frictionNote := none }
  let s1 := if openapiIndicators.length > 0 then
      { s0 with
        score := 2
        findings := s0.findings ++ ["OpenAPI/Swagger indicators: " ++ String.intercalate ", " openapiIndicators] }
    else s0
  let hit := OPENAPI_PROBE_PATHS.find? (fun p =>
    match fetchPage net (origin ++ p) 3000 2 with
    | some r => r.status == 200 && containsSubstr r.html "\"openapi\""
    | none => false)
  let s2 := match hit with
    | some p => { s1 with score := 2, findings := s1.findings ++ ["OpenAPI spec found at " ++ p] }
    | none => s1
  if s2.score == 0 then
    { s2 with findings := s2.findings ++ ["No OpenAPI/Swagger spec detected"] }
  else s2

/-- Modelled from the spec: variant of `disc_metadata` whose direct probes
use a 3s timeout and no retries, as the specification words describe them
("performed with a short 3s timeout and no retries").  Kept only to compare
with the source evaluator above, whose probes retry twice. -/
def disc_metadata_noRetries (allText : String) (net : Fetcher) (origin : String) : SubScore :=
  let openapiIndicators := textContains allText
    ["openapi", "swagger", "api-spec", "openapi.json", "openapi.yaml", "swagger.json",
     "swagger.yaml", "redoc"]
  let s0 : SubScore := { name := "Structured metadata / OpenAPI spec", maxPoints := 2, score := 0,
                         findings := [], frictionType := none, frictionNote := none }
  let s1 := if openapiIndicators.length > 0 then
      { s0 with
        score := 2
        findings := s0.findings ++ ["OpenAPI/Swagger indicators: " ++ String.intercalate ", " openapiIndicators] }
    else s0
  let hit := OPENAPI_PROBE_PATHS.find? (fun p =>
    match fetchPage net (origin ++ p) 3000 0 with
    | some r => r.status == 200 && containsSubstr r.html "\"openapi\""
    | none => false)
  let s2 := match hit with
    | some p => { s1 with score := 2, findings := s1.findings ++ ["OpenAPI spec found at " ++ p] }
    | none => s1
  if s2.score == 0 then
    { s2 with findings := s2.findings ++ ["No OpenAPI/Swagger spec detected"] }
  else s2

/-- Self-serve signup indicator keywords of the signup evaluator. -/
def SIGNUP_KEYWORDS : List String :=
  ["api key", "get started", "sign up", "create account", "register", "get api key",
   "instant access"]

/-- No-human-steps / self-serve keywords of the signup evaluator. -/
def NO_HUMAN_KEYWORDS : List String :=
  ["no credit card", "instant", "self-serve", "self-service", "automatic"]

/-- KYC / identity-verification keywords of the signup evaluator. -/
def KYC_KEYWORDS : List String :=
  ["kyc", "know your customer", "identity verification", "id verification", "aml",
   "anti-money laundering", "verify your identity", "government id", "ssn", "passport",
   "drivers license", "proof of address", "accredited investor"]

/-- Contact-sales / manual-onboarding keywords of the signup evaluator. -/
def CONTACT_SALES_KEYWORDS : List String :=
  ["contact sales", "request demo", "book a demo", "talk to sales", "schedule a call",
   "request access"]

def purch_signup (allText : String) : SubScore :=
  let signupIndicators := textContains allText SIGNUP_KEYWORDS
  let noHumanSteps := textContains allText NO_HUMAN_KEYWORDS
  let kycIndicators := textContains allText KYC_KEYWORDS
  let contactSalesSignup := textContains allText CONTACT_SALES_KEYWORDS
  let base : SubScore := { name := "Programmatic signup", maxPoints := 2, score := 0,
                           findings := [], frictionType := some FrictionType.none,
                           frictionNote := none }
  if kycIndicators.length > 0 then
    { base with
      score := 1
      frictionType := some FrictionType.regulatory
      frictionNote := some "KYC/identity verification required by regulation — not a design choice"
      findings := base.findings ++ ["Regulatory friction (half penalty): " ++ String.intercalate ", " (kycIndicators.take 3)] }
  else if contactSalesSignup.length > 0 && signupIndicators.length == 0 then
    { base with
      score := 0
      frictionType := some FrictionType.voluntary
      frictionNote := some "Manual onboarding by design choice — blocks agents"
      findings := base.findings ++ ["Voluntary friction: " ++ String.intercalate ", " (contactSalesSignup.take 2)] }
  else if noHumanSteps.length > 0 then
    { base with
      score := 2
      findings := base.findings ++ ["Self-serve indicators: " ++ String.intercalate ", " (noHumanSteps.take 2)] }
  else if signupIndicators.length > 0 then
    { base with
      score := 1
      findings := base.findings ++ ["Signup indicators: " ++ String.intercalate ", " (signupIndicators.take 3)] }
  else
    { base with findings := base.findings ++ ["No programmatic signup flow detected"] }

def purch_captcha (allText : String) : SubScore :=
  let base : SubScore := { name := "No CAPTCHA", maxPoints := 2, score := 2,
                           findings := [], frictionType := some FrictionType.none,
                           frictionNote := none }
  let captchaIndicators := textContains allText
    ["recaptcha", "hcaptcha", "captcha", "g-recaptcha", "cf-turnstile", "turnstile"]
  if captchaIndicators.length > 0 then
    { base with
      score := 0
      frictionType := some FrictionType.voluntary
      frictionNote := some "CAPTCHA is a design choice — blocks agents entirely"
      findings := base.findings ++ ["CAPTCHA detected (voluntary friction): " ++ String.intercalate ", " captchaIndicators] }
  else
    { base with findings := base.findings ++ ["No CAPTCHA detected on crawled pages"] }

def purch_billing (allText : String) : SubScore :=
  let billingIndicators := textContains allText
    ["usage-based", "pay per use", "pay as you go", "per request", "per call", "metered",
     "per api call", "per token"]
  let base : SubScore := { name := "API-based / usage-based billing", maxPoints := 2, score := 0,
                           findings := [], frictionType := none, frictionNote := none }
  if billingIndicators.length > 0 then
    { base with
      score := 2
      findings := base.findings ++ ["Usage-based billing: " ++ String.intercalate ", " (billingIndicators.take 2)] }
  else
    let subIndicators := textContains allText ["subscription", "monthly", "annual", "enterprise"]
    if subIndicators.length > 0 then
      { base with
        score := 1
        findings := base.findings ++ ["Traditional subscription billing detected"] }
    else
      { base with findings := base.findings ++ ["No billing model detected"] }

def purch_crypto (allText : String) : SubScore :=
  let cryptoIndicators := textContains allText
    ["crypto", "cryptocurrency", "bitcoin", "ethereum", "usdc", "usdt", "stablecoin",
     "web3", "wallet"]
  let base : SubScore := { name := "Accepts crypto/stablecoin", maxPoints := 2, score := 0,
                           findings := [], frictionType := none, frictionNote := none }
  if cryptoIndicators.length > 0 then
    { base with
      score := 2
      findings := base.findings ++ ["Crypto mentions: " ++ String.intercalate ", " (cryptoIndicators.take 3)] }
  else
    { base with findings := base.findings ++ ["No cryptocurrency payment options detected"] }

def purch_protocols (allText : String) : SubScore :=
  let protocolIndicators := textContains allText
    ["x402", "ucp", "agent protocol", "ap2", "402 payment", "http 402", "machine-payable"]
  let base : SubScore := { name := "Supports x402, UCP, or AP2", maxPoints := 2, score := 0,
                           findings := [], frictionType := none, frictionNote := none }
  if protocolIndicators.length > 0 then
    { base with
      score := 2
      findings := base.findings ++ ["Agent payment protocols: " ++ String.intercalate ", " protocolIndicators] }
  else
    { base with
      findings := base.findings ++ ["No agent payment protocols (x402/UCP/AP2) detected"] }

def int_mcp (allText : String) : SubScore :=
  let mcpIndicators := textContains allText
    ["model context protocol", "mcp", "agent-to-agent", "a2a", "mcp server", "mcp tool",
     "function calling"]
  let base : SubScore := { name := "MCP or A2A support", maxPoints := 3, score := 0,
                           findings := [], frictionType := none, frictionNote := none }
  if mcpIndicators.length > 0 then
    { base with
      score := 3
      findings := base.findings ++ ["MCP/A2A indicators: " ++ String.intercalate ", " (mcpIndicators.take 3)] }
  else
    { base with findings := base.findings ++ ["No MCP or A2A support detected"] }

def int_structured (allText : String) : SubScore :=
  let jsonIndicators := textContains allText
    ["json response", "json api", "application/json", "rest api", "graphql", "json output",
     "json format", "returns json"]
  let sdkIndicators := textContains allText
    ["sdk", "client library", "npm install", "pip install", "gem install", "nuget"]
  let s0 : SubScore := { name := "Structured output (JSON)", maxPoints := 3, score := 0,
                         findings := [], frictionType := none, frictionNote := none }
  let s1 := if jsonIndicators.length > 0 then
      { s0 with
        score := s0.score + 2
        findings := s0.findings ++ ["JSON/structured output: " ++ String.intercalate ", " (jsonIndicators.take 3)] }
    else s0
  let s2 := if sdkIndicators.length > 0 then
      { s1 with
        score := min 3 (s1.score + 1)
        findings := s1.findings ++ ["SDK/client libraries: " ++ String.intercalate ", " (sdkIndicators.take 2)] }
    else s1
  if s2.score == 0 then
    { s2 with findings := s2.findings ++ ["No structured JSON output detected"] }
  else s2

def int_sandbox (allText : String) : SubScore :=
  let sandboxIndicators := textContains allText
    ["sandbox", "test mode", "test environment", "playground", "try it", "interactive",
     "api console", "api explorer"]
  let base : SubScore := { name := "Sandbox/test environment", maxPoints := 2, score := 0,
                           findings := [], frictionType := none, frictionNote := none }
  if sandboxIndicators.length > 0 then
    { base with
      score := 2
      findings := base.findings ++ ["Sandbox/test: " ++ String.intercalate ", " (sandboxIndicators.take 3)] }
  else
    { base with findings := base.findings ++ ["No sandbox or test environment detected"] }

def int_ratelimits (allText : String) : SubScore :=
  let rlIndicators := textContains allText
    ["rate limit", "rate-limit", "throttl", "429", "quota", "requests per", "rpm", "rps",
     "error code", "error handling", "status code"]
  let base : SubScore := { name := "Clear rate limits & error handling", maxPoints := 2, score := 0,
                           findings := [], frictionType := none, frictionNote := none }
  if rlIndicators.length > 0 then
    { base with
      score := 2
      findings := base.findings ++ ["Rate limit/error docs: " ++ String.intercalate ", " (rlIndicators.take 3)] }
  else
    { base with findings := base.findings ++ ["No rate limit documentation detected"] }

def trust_pricing (allText : String) : SubScore :=
  let contactSales := textContains allText
    ["contact sales", "contact us for pricing", "request a quote", "custom pricing",
     "talk to sales"]
  let transparentPricing := textContains allText
    ["$", "€", "£", "free", "per month", "/mo", "/year", "starting at"]
  let base : SubScore := { name := "Transparent pricing", maxPoints := 3, score := 0,
                           findings := [], frictionType := none, frictionNote := none }
  if contactSales.length > 0 && transparentPricing.length == 0 then
    { base with
      score := 0
      findings := base.findings ++ ["Opaque pricing: " ++ String.intercalate ", " contactSales] }
  else if transparentPricing.length > 0 then
    { base with
      score := if contactSales.length > 0 then 2 else 3
      findings := base.findings ++ ["Public pricing found"] ++ (if contactSales.length > 0 then ["Also has \x27contact sales\x27 (likely enterprise tier)"] else []) }
  else
    { base with findings := base.findings ++ ["No pricing information detected"] }

def trust_spend (allText : String) : SubScore :=
  let spendIndicators := textContains allText
    ["spend limit", "usage cap", "budget", "spending limit", "cost control", "billing alert",
     "usage alert", "hard limit", "soft limit"]
  let base : SubScore := { name := "Spend controls and usage caps", maxPoints := 3, score := 0,
                           findings := [], frictionType := none, frictionNote := none }
  if spendIndicators.length > 0 then
    { base with
      score := 3
      findings := base.findings ++ ["Spend controls: " ++ String.intercalate ", " (spendIndicators.take 3)] }
  else
    { base with findings := base.findings ++ ["No spend controls or usage caps detected"] }

def trust_sla (allText : String) (pages : List (String × String)) : SubScore :=
  let slaIndicators := textContains allText
    ["sla", "uptime", "99.9", "99.99", "availability", "service level", "status page"]
  let statusPage := hasKey pages "/status" || hasKey pages "/sla"
  let base : SubScore := { name := "SLA / uptime guarantees", maxPoints := 2, score := 0,
                           findings := [], frictionType := none, frictionNote := none }
  if slaIndicators.length > 0 || statusPage then
    { base with
      score := 2
      findings := base.findings ++ (if statusPage then ["Status/SLA page accessible"] else []) ++ (if slaIndicators.length > 0 then ["SLA mentions: " ++ String.intercalate ", " (slaIndicators.take 3)] else []) }
  else
    { base with findings := base.findings ++ ["No SLA or uptime guarantees detected"] }

def trust_tos (allText : String) (pages : List (String × String)) : SubScore :=
  let tosPage := hasKey pages "/terms" || hasKey pages "/tos" ||
                 hasKey pages "/terms-of-service" || hasKey pages "/legal"
  let automatedUse := textContains allText
    ["automated", "programmatic access", "bot", "machine", "agent", "non-human"]
  let antiBot := textContains allText
    ["no automated", "prohibit automated", "no bots", "no scraping", "human only"]
  let s0 : SubScore := { name := "ToS allows automated/agent usage", maxPoints := 2, score := 0,
                         findings := [], frictionType := none, frictionNote := none }
  let s1 := if tosPage then
      { s0 with
        score := s0.score + 1
        findings := s0.findings ++ ["Terms of Service page found"] }
    else s0
  let s2 := if automatedUse.length > 0 && antiBot.length == 0 then
      { s1 with score := 2, findings := s1.findings ++ ["Appears to allow automated usage"] }
    else if antiBot.length > 0 then
      { s1 with
        score := 0
        findings := s1.findings ++ ["May restrict automated use: " ++ String.intercalate ", " antiBot] }
    else s1
  if s2.score == 0 && !tosPage then
    { s2 with findings := s2.findings ++ ["No Terms of Service found to evaluate"] }
  else s2

/-! ## Aggregation (scorer.ts lines 751-805) -/

/-- Letter grade from the total score (lines 776-781). -/
def gradeOf (totalScore : Nat) : String :=
  if totalScore ≥ 35 then "A"
  else if totalScore ≥ 28 then "B"
  else if totalScore ≥ 20 then "C"
  else if totalScore ≥ 10 then "D"
  else "F"

/-- Scoring section of `scoreUrl` after the crawl: build the corpus views,
run every evaluator, aggregate categories, total, grade and friction
summary. -/
def buildResult (net : Fetcher) (links : LinkExtractor) (origin : String)
    (pages : List (String × String)) (crawledPages errors : List String) : ScoringResult :=
  let allText := strToLower (String.intercalate "\n" (pages.map (fun p => p.2)))
  let allLinks := (pages.map (fun p => p.2)).flatMap (fun html => links html origin)
  let allLinksText := strToLower (String.intercalate " " allLinks)
  let categories0 : List CategoryScore :=
    [{ name := "DISCOVERY", description := "Can an agent find this?", maxPoints := 10, score := 0,
       subScores := [disc_api allText allLinksText pages, disc_pricing allText pages,
                     disc_directories allText, disc_metadata allText net origin] },
     { name := "PURCHASE", description := "Can an agent buy it?", maxPoints := 10, score := 0,
       subScores := [purch_signup allText, purch_captcha allText, purch_billing allText,
                     purch_crypto allText, purch_protocols allText] },
     { name := "INTEGRATION", description := "Can an agent use it?", maxPoints := 10, score := 0,
       subScores := [int_mcp allText, int_structured allText, int_sandbox allText,
                     int_ratelimits allText] },
     { name := "TRUST", description := "Would an owner allow it?", maxPoints := 10, score := 0,
       subScores := [trust_pricing allText, trust_spend allText, trust_sla allText pages,
                     trust_tos allText pages] }]
  let categories := categories0.map (fun c =>
    { c with score := min c.maxPoints (c.subScores.foldl (fun sum s => sum + s.score) 0) })
  let totalScore := categories.foldl (fun sum c => sum + c.score) 0
  let allSubScores := categories.flatMap (fun c => c.subScores)
  let voluntaryFriction := (allSubScores.filter
      (fun s => s.frictionType == some FrictionType.voluntary)).map
    (fun s => s.frictionNote.getD s.name)
  let regulatoryFriction := (allSubScores.filter
      (fun s => s.frictionType == some FrictionType.regulatory)).map
    (fun s => s.frictionNote.getD s.name)
  { url := origin, totalScore := totalScore, maxScore := 40, grade := gradeOf totalScore,
    categories := categories,
    frictionSummary := { voluntaryFriction := voluntaryFriction,
                         regulatoryFriction := regulatoryFriction,
                         agentReadyPending := !regulatoryFriction.isEmpty },
    crawledPages := crawledPages, errors := errors }

/-- Model of `scoreUrl(inputUrl)`: validate and normalize, crawl, record the
soft error on a fully failed crawl, then score. -/
def scoreUrl (net : Fetcher) (links : LinkExtractor) (input : String) :
    Except UrlError ScoringResult :=
  match normalizeBase input with
  | .error e => .error e
  | .ok base =>
    let origin := base.origin
    let baseDomain := if strStartsWith base.host "www." then strDrop base.host 4 else base.host
    let st := runCrawl net links origin baseDomain
    let errors := if st.pages.isEmpty then ["Could not fetch any pages from this URL"] else []
    .ok (buildResult net links origin st.pages st.crawledPages errors)

/-! ## Concrete fetch and link behaviors used by the theorems -/

/-- Fetcher for which every attempt at every URL fails. -/
def netNone : Fetcher := fun _ _ _ => none

/-- Link extractor that finds no links. -/
def linksNone : LinkExtractor := fun _ _ => []

/-- The result of scoring `acme.com` against the unreachable network. -/
def resNone : ScoringResult := ((scoreUrl netNone linksNone "acme.com").toOption).getD default

/-- Fetcher for the `docs.docs.do` run: every URL responds with status 200;
the origin root and the `docs` subdomain root serve the body "H", everything
else serves "x". -/
def netC2 : Fetcher := fun url _ _ =>
  if url == "https://docs.docs.do" || url == "https://docs.docs.docs.do" then
    some { html := "H", status := 200 }
  else some { html := "x", status := 200 }

/-- Link extractor for the `docs.docs.do` run: the body "H" links to three
relevant same-site pages. -/
def linksC2 : LinkExtractor := fun html _ =>
  if html == "H" then
    ["https://docs.docs.do/api/a", "https://docs.docs.do/api/b", "https://docs.docs.do/api/c"]
  else []

/-- Fetcher for the cross-subdomain keying run: only the `x.com` root and
one page on the `docs.x.com` subdomain are reachable. -/
def netC9 : Fetcher := fun url _ _ =>
  if url == "https://x.com" then some { html := "H", status := 200 }
  else if url == "https://docs.x.com/api" then some { html := "B", status := 200 }
  else none

/-- Link extractor for the cross-subdomain keying run. -/
def linksC9 : LinkExtractor := fun html _ =>
  if html == "H" then ["https://docs.x.com/api"] else []

/-- Fetcher for the suffix-matching run: the `example.com` root and a page
on the unrelated host `evilexample.com` are reachable. -/
def netC10 : Fetcher := fun url _ _ =>
  if url == "https://example.com" || url == "https://evilexample.com/api" then
    some { html := "H", status := 200 }
  else none

/-- Link extractor for the suffix-matching run: the root links to a page on
`evilexample.com`, a host that merely ends with the characters of
`example.com`. -/
def linksC10 : LinkExtractor := fun html _ =>
  if html == "H" then ["https://evilexample.com/api"] else []

/-- Fetcher whose first attempt at the OpenAPI probe URL fails and whose
retry attempts succeed with a spec body; every other URL fails. -/
def netC8 : Fetcher := fun url _ attempt =>
  if url == "https://acme.io/openapi.json" then
    (if attempt == 0 then none else some { html := "\"openapi\"", status := 200 })
  else none

/-- Fetcher whose first attempt at the OpenAPI probe URL already succeeds. -/
def netC8w : Fetcher := fun url _ _ =>
  if url == "https://acme.io/openapi.json" then some { html := "\"openapi\"", status := 200 }
  else none

/-- Fetcher that agrees with `netC8w` exactly on calls made with a 3000ms
timeout and fails everything else. -/
def netC8t : Fetcher := fun url timeout attempt =>
  if timeout == 3000 then netC8w url timeout attempt else none

/-! ## General lemmas -/

set_option maxRecDepth 100000
set_option maxHeartbeats 2000000

theorem foldl_add_extract {α : Type} (f : α → Nat) (l : List α) (a : Nat) :
    l.foldl (fun sum x => sum + f x) a = a + (l.map f).sum := by
  induction l generalizing a with
  | nil => simp
  | cons x xs ih => simp [List.foldl, ih]; omega

theorem find?_isSome_of_exists {α : Type} {l : List α} {p : α → Bool}
    (h : ∃ x ∈ l, p x = true) : ∃ y, l.find? p = some y := by
  induction l with
  | nil => simp at h
  | cons x xs ih =>
    by_cases hp : p x
    · exact ⟨x, by simp [List.find?, hp]⟩
    · simp only [List.find?, hp]
      rcases h with ⟨z, hz, hpz⟩
      rcases List.mem_cons.mp hz with hzx | hz2
      · rw [hzx] at hpz; simp [hpz] at hp
      · exact ih ⟨z, hz2, hpz⟩

theorem find?_congr {α : Type} (l : List α) (p q : α → Bool) (h : ∀ x ∈ l, p x = q x) :
    l.find? p = l.find? q := by
  induction l with
  | nil => rfl
  | cons x xs ih =>
    simp only [List.find?]
    rw [h x (by simp)]
    cases hq : q x
    · simp only []
      exact ih fun y hy => h y (List.mem_cons_of_mem _ hy)
    · rfl

theorem setKV_ne_nil (m : List (String × String)) (k v : String) : setKV m k v ≠ [] := by
  unfold setKV
  split <;> simp_all
  intro hm
  simp [hm] at *

theorem mem_keys_setKV {m : List (String × String)} {k v k2 : String}
    (h : k2 ∈ (setKV m k v).map (fun p => p.1)) : k2 ∈ m.map (fun p => p.1) ∨ k2 = k := by
  unfold setKV at h
  split at h
  · rcases List.mem_map.mp h with ⟨p, hp, hk2⟩
    rcases List.mem_map.mp hp with ⟨q, hq, hpq⟩
    by_cases hqk : q.1 == k
    · right
      rw [if_pos hqk] at hpq
      rw [← hpq] at hk2
      exact hk2.symm
    · left
      rw [if_neg hqk] at hpq
      rw [← hpq] at hk2
      exact hk2 ▸ List.mem_map.mpr ⟨q, hq, rfl⟩
  · rw [List.map_append] at h
    rcases List.mem_append.mp h with h1 | h1
    · left; exact h1
    · right; simpa using h1

theorem scoreUrl_ok {net : Fetcher} {links : LinkExtractor} {input : String} {r : ScoringResult}
    (h : scoreUrl net links input = .ok r) :
    ∃ base, normalizeBase input = .ok base ∧
      r = buildResult net links base.origin
        (runCrawl net links base.origin
          (if strStartsWith base.host "www." then strDrop base.host 4 else base.host)).pages
        (runCrawl net links base.origin
          (if strStartsWith base.host "www." then strDrop base.host 4 else base.host)).crawledPages
        (if (runCrawl net links base.origin
              (if strStartsWith base.host "www." then strDrop base.host 4
               else base.host)).pages.isEmpty
         then ["Could not fetch any pages from this URL"] else []) := by
  unfold scoreUrl at h
  cases hn : normalizeBase input with
  | error e => rw [hn] at h; cases h
  | ok base =>
    rw [hn] at h
    injection h with h
    exact ⟨base, rfl, h.symm⟩

theorem buildResult_agg (net : Fetcher) (links : LinkExtractor) (origin : String)
    (pages : List (String × String)) (crawledPages errors : List String) :
    (buildResult net links origin pages crawledPages errors).totalScore =
      (((buildResult net links origin pages crawledPages errors).categories.map
        (fun c => c.score)).sum) ∧
    (buildResult net links origin pages crawledPages errors).totalScore ≤ 40 ∧
    (buildResult net links origin pages crawledPages errors).categories.length = 4 ∧
    ∀ c ∈ (buildResult net links origin pages crawledPages errors).categories,
      c.score = min 10 ((c.subScores.map (fun s => s.score)).sum) ∧
        0 ≤ c.score ∧ c.score ≤ 10 := by
  simp only [buildResult]
  refine ⟨?_, ?_, ?_, ?_⟩
  · simp [List.foldl, List.map]
    omega
  · simp [List.foldl, List.map]
    omega
  · simp [List.map]
  · intro c hc
    simp only [List.map, List.mem_cons, List.not_mem_nil, or_false] at hc
    rcases hc with rfl | rfl | rfl | rfl
    all_goals refine ⟨?_, Nat.zero_le _, ?_⟩
    all_goals simp [foldl_add_extract, List.map]
    all_goals omega

theorem disc_api_le (t lt : String) (pg : List (String × String)) :
    (disc_api t lt pg).score ≤ (disc_api t lt pg).maxPoints := by
  simp only [disc_api]
  repeat' split
  all_goals simp_all

theorem disc_pricing_le (t : String) (pg : List (String × String)) :
    (disc_pricing t pg).score ≤ (disc_pricing t pg).maxPoints := by
  simp only [disc_pricing]
  repeat' split
  all_goals simp_all

theorem disc_directories_le (t : String) :
    (disc_directories t).score ≤ (disc_directories t).maxPoints := by
  simp only [disc_directories]
  repeat' split
  all_goals simp_all

theorem disc_metadata_le (t : String) (net : Fetcher) (origin : String) :
    (disc_metadata t net origin).score ≤ (disc_metadata t net origin).maxPoints := by
  simp only [disc_metadata]
  repeat' split
  all_goals simp_all

theorem purch_signup_le (t : String) :
    (purch_signup t).score ≤ (purch_signup t).maxPoints := by
  simp only [purch_signup]
  repeat' split
  all_goals simp_all

theorem purch_captcha_le (t : String) :
    (purch_captcha t).score ≤ (purch_captcha t).maxPoints := by
  simp only [purch_captcha]
  repeat' split
  all_goals simp_all

theorem purch_billing_le (t : String) :
    (purch_billing t).score ≤ (purch_billing t).maxPoints := by
  simp only [purch_billing]
  repeat' split
  all_goals simp_all

theorem purch_crypto_le (t : String) :
    (purch_crypto t).score ≤ (purch_crypto t).maxPoints := by
  simp only [purch_crypto]
  repeat' split
  all_goals simp_all

theorem purch_protocols_le (t : String) :
    (purch_protocols t).score ≤ (purch_protocols t).maxPoints := by
  simp only [purch_protocols]
  repeat' split
  all_goals simp_all

theorem int_mcp_le (t : String) :
    (int_mcp t).score ≤ (int_mcp t).maxPoints := by
  simp only [int_mcp]
  repeat' split
  all_goals simp_all

theorem int_structured_le (t : String) :
    (int_structured t).score ≤ (int_structured t).maxPoints := by
  simp only [int_structured]
  repeat' split
  all_goals simp_all

theorem int_sandbox_le (t : String) :
    (int_sandbox t).score ≤ (int_sandbox t).maxPoints := by
  simp only [int_sandbox]
  repeat' split
  all_goals simp_all

theorem int_ratelimits_le (t : String) :
    (int_ratelimits t).score ≤ (int_ratelimits t).maxPoints := by
  simp only [int_ratelimits]
  repeat' split
  all_goals simp_all

theorem trust_pricing_le (t : String) :
    (trust_pricing t).score ≤ (trust_pricing t).maxPoints := by
  simp only [trust_pricing]
  repeat' split
  all_goals simp_all

theorem trust_spend_le (t : String) :
    (trust_spend t).score ≤ (trust_spend t).maxPoints := by
  simp only [trust_spend]
  repeat' split
  all_goals simp_all

theorem trust_sla_le (t : String) (pg : List (String × String)) :
    (trust_sla t pg).score ≤ (trust_sla t pg).maxPoints := by
  simp only [trust_sla]
  repeat' split
  all_goals simp_all

theorem trust_tos_le (t : String) (pg : List (String × String)) :
    (trust_tos t pg).score ≤ (trust_tos t pg).maxPoints := by
  simp only [trust_tos]
  repeat' split
  all_goals simp_all

theorem buildResult_subscore_bounds (net : Fetcher) (links : LinkExtractor) (origin : String)
    (pages : List (String × String)) (crawledPages errors : List String) :
    ∀ c ∈ (buildResult net links origin pages crawledPages errors).categories,
      ∀ s ∈ c.subScores, 0 ≤ s.score ∧ s.score ≤ s.maxPoints := by
  intro c hc s hs
  simp only [buildResult, List.map, List.mem_cons, List.not_mem_nil, or_false] at hc
  rcases hc with rfl | rfl | rfl | rfl <;>
    simp only [List.mem_cons, List.not_mem_nil, or_false] at hs
  · rcases hs with rfl | rfl | rfl | rfl
    · exact ⟨Nat.zero_le _, disc_api_le _ _ _⟩
    · exact ⟨Nat.zero_le _, disc_pricing_le _ _⟩
    · exact ⟨Nat.zero_le _, disc_directories_le _⟩
    · exact ⟨Nat.zero_le _, disc_metadata_le _ _ _⟩
  · rcases hs with rfl | rfl | rfl | rfl | rfl
    · exact ⟨Nat.zero_le _, purch_signup_le _⟩
    · exact ⟨Nat.zero_le _, purch_captcha_le _⟩
    · exact ⟨Nat.zero_le _, purch_billing_le _⟩
    · exact ⟨Nat.zero_le _, purch_crypto_le _⟩
    · exact ⟨Nat.zero_le _, purch_protocols_le _⟩
  · rcases hs with rfl | rfl | rfl | rfl
    · exact ⟨Nat.zero_le _, int_mcp_le _⟩
    · exact ⟨Nat.zero_le _, int_structured_le _⟩
    · exact ⟨Nat.zero_le _, int_sandbox_le _⟩
    · exact ⟨Nat.zero_le _, int_ratelimits_le _⟩
  · rcases hs with rfl | rfl | rfl | rfl
    · exact ⟨Nat.zero_le _, trust_pricing_le _⟩
    · exact ⟨Nat.zero_le _, trust_spend_le _⟩
    · exact ⟨Nat.zero_le _, trust_sla_le _ _⟩
    · exact ⟨Nat.zero_le _, trust_tos_le _ _⟩

theorem disc_metadata_score_cases (t : String) (net : Fetcher) (origin : String) :
    (disc_metadata t net origin).score = 0 ∨ (disc_metadata t net origin).score = 2 := by
  simp only [disc_metadata]
  repeat' split
  all_goals simp_all

theorem buildResult_empty (net : Fetcher) (links : LinkExtractor) (origin : String)
    (errors : List String) :
    ∃ d, (buildResult net links origin [] [] errors).categories.map (fun c => c.score) =
          [d, 2, 0, 0] ∧
      (d = 0 ∨ d = 2) ∧
      (buildResult net links origin [] [] errors).totalScore = d + 2 := by
  have hfm : (([] : List String).flatMap (fun html => links html origin)) = [] := rfl
  have ht : strToLower (String.intercalate "\n" []) = "" := rfl
  have hl : strToLower (String.intercalate " " []) = "" := rfl
  have e1 : (disc_api "" "" []).score = 0 := by decide
  have e2 : (disc_pricing "" []).score = 0 := by decide
  have e3 : (disc_directories "").score = 0 := by decide
  have e4 : (purch_signup "").score = 0 := by decide
  have e5 : (purch_captcha "").score = 2 := by decide
  have e6 : (purch_billing "").score = 0 := by decide
  have e7 : (purch_crypto "").score = 0 := by decide
  have e8 : (purch_protocols "").score = 0 := by decide
  have e9 : (int_mcp "").score = 0 := by decide
  have e10 : (int_structured "").score = 0 := by decide
  have e11 : (int_sandbox "").score = 0 := by decide
  have e12 : (int_ratelimits "").score = 0 := by decide
  have e13 : (trust_pricing "").score = 0 := by decide
  have e14 : (trust_spend "").score = 0 := by decide
  have e15 : (trust_sla "" []).score = 0 := by decide
  have e16 : (trust_tos "" []).score = 0 := by decide
  refine ⟨(disc_metadata "" net origin).score, ?_, disc_metadata_score_cases "" net origin, ?_⟩
  · simp only [buildResult, List.map, hfm, ht, hl, List.foldl, e1, e2, e3, e4, e5, e6, e7, e8,
      e9, e10, e11, e12, e13, e14, e15, e16]
    rcases disc_metadata_score_cases "" net origin with hd | hd <;> rw [hd] <;> decide
  · simp only [buildResult, List.map, hfm, ht, hl, List.foldl, e1, e2, e3, e4, e5, e6, e7, e8,
      e9, e10, e11, e12, e13, e14, e15, e16]
    rcases disc_metadata_score_cases "" net origin with hd | hd <;> rw [hd] <;> decide

theorem phase1Step_emptyIff (net : Fetcher) (origin : String) (st : CrawlSt) (u : String)
    (h : st.pages = [] ↔ st.crawledPages = []) :
    (phase1Step net origin st u).pages = [] ↔ (phase1Step net origin st u).crawledPages = [] := by
  unfold phase1Step
  split
  · split
    · simp [setKV_ne_nil]
    · exact h
  · exact h

theorem phase1_emptyIff (net : Fetcher) (origin : String) :
    ∀ (seeds : List String) (st : CrawlSt),
      (st.pages = [] ↔ st.crawledPages = []) →
      ((phase1 net origin seeds st).pages = [] ↔
        (phase1 net origin seeds st).crawledPages = []) := by
  intro seeds
  induction seeds with
  | nil => intro st h; exact h
  | cons u rest ih =>
    intro st h
    simp only [phase1, List.foldl] at *
    exact ih _ (phase1Step_emptyIff net origin st u h)

theorem phase3_emptyIff (net : Fetcher) :
    ∀ (l : List String) (st : CrawlSt),
      (st.pages = [] ↔ st.crawledPages = []) →
      ((phase3 net l st).pages = [] ↔ (phase3 net l st).crawledPages = []) := by
  intro l
  induction l with
  | nil => intro st h; exact h
  | cons u rest ih =>
    intro st h
    rw [phase3]
    split
    · exact h
    · apply ih
      split
      · split
        · simp [setKV_ne_nil]
        · exact h
      · exact h

theorem runCrawl_emptyIff (net : Fetcher) (links : LinkExtractor) (origin baseDomain : String) :
    ((runCrawl net links origin baseDomain).pages = [] ↔
      (runCrawl net links origin baseDomain).crawledPages = []) := by
  unfold runCrawl phase1Result
  apply phase3_emptyIff
  apply phase1_emptyIff
  simp

theorem phase1_keys (net : Fetcher) (origin : String) :
    ∀ (seeds : List String) (st : CrawlSt) (k : String),
      k ∈ (phase1 net origin seeds st).pages.map (fun p => p.1) →
      k ∈ st.pages.map (fun p => p.1) ∨
        ∃ u ∈ seeds, k = if strStartsWith u origin then urlPathOf u else u := by
  intro seeds
  induction seeds with
  | nil => intro st k h; left; exact h
  | cons u rest ih =>
    intro st k h
    simp only [phase1, List.foldl] at h
    rcases ih (phase1Step net origin st u) k h with h1 | ⟨w, hw, hk⟩
    · unfold phase1Step at h1
      split at h1
      · split at h1
        · rcases mem_keys_setKV h1 with h2 | h2
          · left; exact h2
          · right; exact ⟨u, by simp, h2⟩
        · left; exact h1
      · left; exact h1
    · right; exact ⟨w, List.mem_cons_of_mem _ hw, hk⟩

theorem phase3_keys (net : Fetcher) :
    ∀ (l : List String) (st : CrawlSt) (k : String),
      k ∈ (phase3 net l st).pages.map (fun p => p.1) →
      k ∈ st.pages.map (fun p => p.1) ∨ ∃ u ∈ l, k = urlPathOf u := by
  intro l
  induction l with
  | nil => intro st k h; left; exact h
  | cons u rest ih =>
    intro st k h
    rw [phase3] at h
    split at h
    · left; exact h
    · rcases ih _ k h with h1 | ⟨w, hw, hk⟩
      · split at h1
        · split at h1
          · rcases mem_keys_setKV h1 with h2 | h2
            · left; exact h2
            · right; exact ⟨u, by simp, h2⟩
          · left; exact h1
        · left; exact h1
      · right; exact ⟨w, List.mem_cons_of_mem _ hw, hk⟩

theorem buildResult_grade (net : Fetcher) (links : LinkExtractor) (origin : String)
    (pages : List (String × String)) (crawledPages errors : List String) :
    (buildResult net links origin pages crawledPages errors).grade =
      gradeOf (buildResult net links origin pages crawledPages errors).totalScore := by
  simp only [buildResult]

/-! ## Claims -/

/-- Claim C1: for every scoring run that returns a result, each of the four
category scores equals min(10, sum of its sub-scores) and lies in [0, 10],
and totalScore equals the sum of the four category scores and lies in
[0, 40] (scores are Nat, so the lower bounds are the trivial ones). -/
theorem claim_C1 (net : Fetcher) (links : LinkExtractor) (input : String) (r : ScoringResult)
    (h : scoreUrl net links input = .ok r) :
    r.totalScore = ((r.categories.map (fun c => c.score)).sum) ∧
    r.totalScore ≤ 40 ∧
    r.categories.length = 4 ∧
    ∀ c ∈ r.categories,
      c.score = min 10 ((c.subScores.map (fun s => s.score)).sum) ∧
        0 ≤ c.score ∧ c.score ≤ 10 := by
  obtain ⟨base, hb, rfl⟩ := scoreUrl_ok h
  exact buildResult_agg net links base.origin _ _ _

/-- Witness for claim C1 at the run of `acme.com` against the unreachable
network. -/
theorem claim_C1_witness :
    resNone.totalScore = ((resNone.categories.map (fun c => c.score)).sum) ∧
    resNone.totalScore ≤ 40 ∧
    resNone.categories.length = 4 ∧
    ∀ c ∈ resNone.categories,
      c.score = min 10 ((c.subScores.map (fun s => s.score)).sum) ∧
        0 ≤ c.score ∧ c.score ≤ 10 :=
  claim_C1 netNone linksNone "acme.com" resNone (by decide)

/-- Claim C2 evaluation: the crawledPages cap is violated on the host
`docs.docs.do`.  The subdomain seed `https://docs.docs.docs.do` is a string
extension of the origin `https://docs.docs.do`, so Phase 1 keys its page by
pathname `/` and overwrites the root entry: 28 fetches produce only 27 page
entries.  The Phase 3 budget `30 - pages.size = 3` then admits 3 more
fetches, and crawledPages reaches 28 + 3 = 31 > 30 even though the page map
stops at 30.  The `MAX_CRAWL_PAGES` constant and the regression test
`respects MAX_CRAWL_PAGES limit` (crawledPages.length ≤ 30) show the bound
was intended to hold for crawledPages. -/
theorem claim_C2 :
    (scoreUrl netC2 linksC2 "docs.docs.do").map (fun r => r.crawledPages.length) = .ok 31 ∧
    (runCrawl netC2 linksC2 "https://docs.docs.do" "docs.docs.do").pages.length = 30 := by
  decide

/-- Claim C3: the signup evaluator is asymmetric between friction kinds.
Any corpus with a KYC keyword scores 1 of 2 with regulatory friction; a
corpus with a contact-sales keyword, no KYC keyword and no self-serve
signup-indicator keyword scores 0 of 2 with voluntary friction; absent both
signals the evaluator falls through to ordinary self-serve/signup keyword
matching with no friction tag. -/
theorem claim_C3 (allText : String) :
    (textContains allText KYC_KEYWORDS ≠ [] →
      (purch_signup allText).score = 1 ∧
      (purch_signup allText).frictionType = some FrictionType.regulatory) ∧
    (textContains allText CONTACT_SALES_KEYWORDS ≠ [] →
      textContains allText KYC_KEYWORDS = [] →
      textContains allText SIGNUP_KEYWORDS = [] →
      (purch_signup allText).score = 0 ∧
      (purch_signup allText).frictionType = some FrictionType.voluntary) ∧
    (textContains allText KYC_KEYWORDS = [] →
      textContains allText CONTACT_SALES_KEYWORDS = [] →
      (purch_signup allText).score =
        (if textContains allText NO_HUMAN_KEYWORDS ≠ [] then 2
         else if textContains allText SIGNUP_KEYWORDS ≠ [] then 1
         else 0) ∧
      (purch_signup allText).frictionType = some FrictionType.none) := by
  by_cases hk : textContains allText KYC_KEYWORDS = [] <;>
    by_cases hc : textContains allText CONTACT_SALES_KEYWORDS = [] <;>
    by_cases hs : textContains allText SIGNUP_KEYWORDS = [] <;>
    by_cases hn : textContains allText NO_HUMAN_KEYWORDS = [] <;>
    simp_all [purch_signup, List.length_pos]

/-- Witness for claim C3 on the corpora "kyc", "contact sales" and
"sign up now". -/
theorem claim_C3_witness :
    ((purch_signup "kyc").score = 1 ∧
      (purch_signup "kyc").frictionType = some FrictionType.regulatory) ∧
    ((purch_signup "contact sales").score = 0 ∧
      (purch_signup "contact sales").frictionType = some FrictionType.voluntary) ∧
    ((purch_signup "sign up now").score =
        (if textContains "sign up now" NO_HUMAN_KEYWORDS ≠ [] then 2
         else if textContains "sign up now" SIGNUP_KEYWORDS ≠ [] then 1
         else 0) ∧
      (purch_signup "sign up now").frictionType = some FrictionType.none) :=
  ⟨(claim_C3 "kyc").1 (by decide),
   (claim_C3 "contact sales").2.1 (by decide) (by decide) (by decide),
   (claim_C3 "sign up now").2.2 (by decide) (by decide)⟩

/-- Claim C4 counterexample: a run whose crawl fetches zero pages does yield
the soft error string, but its scores are not all zero — the No-CAPTCHA
sub-score keeps its benefit-of-the-doubt 2 points, so totalScore = 2 and the
category scores are [0, 2, 0, 0]. -/
theorem claim_C4_counterexample :
    (scoreUrl netNone linksNone "acme.com").map
        (fun r => (r.totalScore, r.errors, r.crawledPages,
          r.categories.map (fun c => c.score))) =
      .ok (2, ["Could not fetch any pages from this URL"], [],
        [0, 2, 0, 0]) := by
  decide

/-- Claim C4 (amended): whenever normalization succeeds, score() returns a
result rather than throwing; the errors array is non-empty exactly when zero
pages were fetched, and in that case it is exactly the soft error string and
every score is zero except the No-CAPTCHA sub-score (2 points) and possibly
the OpenAPI sub-score (2 points when a direct well-known-path probe
succeeds), so the category scores are [d, 2, 0, 0] with d ∈ {0, 2} and
totalScore = d + 2. -/
theorem claim_C4 :
    (∀ (net : Fetcher) (links : LinkExtractor) (input : String) (base : Url),
      normalizeBase input = .ok base → ∃ r, scoreUrl net links input = .ok r) ∧
    (∀ (net : Fetcher) (links : LinkExtractor) (input : String) (r : ScoringResult),
      scoreUrl net links input = .ok r →
      ((r.errors ≠ [] ↔ r.crawledPages = []) ∧
       (r.crawledPages = [] →
         r.errors = ["Could not fetch any pages from this URL"] ∧
         ∃ d, r.categories.map (fun c => c.score) = [d, 2, 0, 0] ∧ (d = 0 ∨ d = 2) ∧
           r.totalScore = d + 2))) := by
  constructor
  · intro net links input base hb
    unfold scoreUrl
    rw [hb]
    exact ⟨_, rfl⟩
  · intro net links input r h
    obtain ⟨base, hb, rfl⟩ := scoreUrl_ok h
    have hcr : ∀ (e : List String) (pg : List (String × String)) (cp : List String),
        (buildResult net links base.origin pg cp e).crawledPages = cp := fun _ _ _ => rfl
    have her : ∀ (e : List String) (pg : List (String × String)) (cp : List String),
        (buildResult net links base.origin pg cp e).errors = e := fun _ _ _ => rfl
    rw [hcr, her]
    constructor
    · cases hp : (runCrawl net links base.origin
          (if strStartsWith base.host "www." then strDrop base.host 4
           else base.host)).pages.isEmpty
      · have hpn : (runCrawl net links base.origin
            (if strStartsWith base.host "www." then strDrop base.host 4
             else base.host)).pages ≠ [] := by
          simpa [List.isEmpty_iff] using hp
        have hcn : (runCrawl net links base.origin
            (if strStartsWith base.host "www." then strDrop base.host 4
             else base.host)).crawledPages ≠ [] := by
          intro hc
          exact hpn ((runCrawl_emptyIff _ _ _ _).mpr hc)
        simp [hp, hcn]
      · have hpe : (runCrawl net links base.origin
            (if strStartsWith base.host "www." then strDrop base.host 4
             else base.host)).pages = [] := by
          simpa [List.isEmpty_iff] using hp
        have hce := (runCrawl_emptyIff net links base.origin
          (if strStartsWith base.host "www." then strDrop base.host 4
           else base.host)).mp hpe
        simp [hp, hce]
    · intro hc0
      have hpe : (runCrawl net links base.origin
          (if strStartsWith base.host "www." then strDrop base.host 4
           else base.host)).pages = [] :=
        (runCrawl_emptyIff _ _ _ _).mpr hc0
      rw [hpe, hc0]
      constructor
      · simp
      · exact buildResult_empty net links base.origin _

/-- Witness for claim C4 at the run of `acme.com` against the unreachable
network. -/
theorem claim_C4_witness :
    (∃ r, scoreUrl netNone linksNone "acme.com" = .ok r) ∧
    (resNone.errors ≠ [] ↔ resNone.crawledPages = []) ∧
    (resNone.errors = ["Could not fetch any pages from this URL"] ∧
      ∃ d, resNone.categories.map (fun c => c.score) = [d, 2, 0, 0] ∧ (d = 0 ∨ d = 2) ∧
        resNone.totalScore = d + 2) :=
  ⟨claim_C4.1 netNone linksNone "acme.com"
      { scheme := "https", host := "acme.com", path := "/" } (by decide),
   (claim_C4.2 netNone linksNone "acme.com" resNone (by decide)).1,
   (claim_C4.2 netNone linksNone "acme.com" resNone (by decide)).2 (by decide)⟩

/-- Claim C6: the letter grade is a pure function of totalScore alone with
exact boundaries A ≥ 35, 28 ≤ B < 35, 20 ≤ C < 28, 10 ≤ D < 20, F < 10. -/
theorem claim_C6 :
    (∀ (net : Fetcher) (links : LinkExtractor) (input : String) (r : ScoringResult),
      scoreUrl net links input = .ok r → r.grade = gradeOf r.totalScore) ∧
    ∀ t : Nat,
      (gradeOf t = "A" ↔ 35 ≤ t) ∧
      (gradeOf t = "B" ↔ 28 ≤ t ∧ t < 35) ∧
      (gradeOf t = "C" ↔ 20 ≤ t ∧ t < 28) ∧
      (gradeOf t = "D" ↔ 10 ≤ t ∧ t < 20) ∧
      (gradeOf t = "F" ↔ t < 10) := by
  constructor
  · intro net links input r h
    obtain ⟨base, hb, rfl⟩ := scoreUrl_ok h
    exact buildResult_grade net links base.origin _ _ _
  · intro t
    unfold gradeOf
    refine ⟨?_, ?_, ?_, ?_, ?_⟩ <;> split_ifs <;> simp_all <;> omega

/-- Witness for claim C6 at the run of `acme.com` against the unreachable
network. -/
theorem claim_C6_witness : resNone.grade = gradeOf resNone.totalScore :=
  claim_C6.1 netNone linksNone "acme.com" resNone (by decide)

/-- Claim C7: for every corpus (and hence every scoring run), every SubScore
produced by the seventeen evaluators satisfies 0 ≤ score ≤ maxPoints. -/
theorem claim_C7 :
    (∀ (net : Fetcher) (links : LinkExtractor) (origin : String)
        (pages : List (String × String)) (crawledPages errors : List String),
      ∀ c ∈ (buildResult net links origin pages crawledPages errors).categories,
        ∀ s ∈ c.subScores, 0 ≤ s.score ∧ s.score ≤ s.maxPoints) ∧
    (∀ (net : Fetcher) (links : LinkExtractor) (input : String) (r : ScoringResult),
      scoreUrl net links input = .ok r →
      ∀ c ∈ r.categories, ∀ s ∈ c.subScores, 0 ≤ s.score ∧ s.score ≤ s.maxPoints) := by
  refine ⟨buildResult_subscore_bounds, ?_⟩
  intro net links input r h
  obtain ⟨base, hb, rfl⟩ := scoreUrl_ok h
  exact buildResult_subscore_bounds net links base.origin _ _ _

/-- Witness for claim C7 at the head sub-score of the head category of an
empty-corpus result. -/
theorem claim_C7_witness :
    0 ≤ (((buildResult netNone linksNone "https://acme.com" [] [] []).categories.headD
          default).subScores.headD default).score ∧
    (((buildResult netNone linksNone "https://acme.com" [] [] []).categories.headD
          default).subScores.headD default).score ≤
      (((buildResult netNone linksNone "https://acme.com" [] [] []).categories.headD
          default).subScores.headD default).maxPoints :=
  claim_C7.1 netNone linksNone "https://acme.com" [] [] []
    ((buildResult netNone linksNone "https://acme.com" [] [] []).categories.headD default)
    (by decide)
    (((buildResult netNone linksNone "https://acme.com" [] [] []).categories.headD
        default).subScores.headD default)
    (by decide)

/-- Claim C8 counterexample: the direct spec probes do retry.  Against a
fetch behavior whose first attempt at `/openapi.json` fails and whose retry
attempts return a status-200 body containing "openapi", the source evaluator
(which calls fetchPage with timeout 3000 and the default 2 retries) scores
2, while the no-retries variant described by the specification scores 0 —
so the probes are not performed with "no retries". -/
theorem claim_C8_counterexample :
    (disc_metadata "" netC8 "https://acme.io").score = 2 ∧
    (disc_metadata_noRetries "" netC8 "https://acme.io").score = 0 := by
  decide

/-- Claim C8 (amended): the direct targeted fetches to the four well-known
spec paths are performed with a 3-second timeout and the fetchPage default
of up to 2 retries — the evaluator consults the fetch primitive only at
timeout 3000 and attempts 0..2 on those URLs — and a fetched body with
status 200 containing an "openapi" field at any of the four locations sets
the OpenAPI/Swagger sub-score to its maximum of 2. -/
theorem claim_C8 :
    (∀ (allText : String) (net : Fetcher) (origin : String),
      (∃ p ∈ OPENAPI_PROBE_PATHS, ∃ fr : FetchResult,
          fetchPage net (origin ++ p) 3000 2 = some fr ∧ fr.status = 200 ∧
          containsSubstr fr.html "\"openapi\"" = true) →
      (disc_metadata allText net origin).score = 2) ∧
    (∀ (allText origin : String) (net net2 : Fetcher),
      (∀ p ∈ OPENAPI_PROBE_PATHS, ∀ a, a < 3 →
          net (origin ++ p) 3000 a = net2 (origin ++ p) 3000 a) →
      disc_metadata allText net origin = disc_metadata allText net2 origin) := by
  constructor
  · intro allText net origin ⟨p, hp, fr, hfr, hst, hcs⟩
    have hex : ∃ y, (OPENAPI_PROBE_PATHS.find? fun q =>
        match fetchPage net (origin ++ q) 3000 2 with
        | some r => r.status == 200 && containsSubstr r.html "\"openapi\""
        | none => false) = some y := by
      apply find?_isSome_of_exists
      refine ⟨p, hp, ?_⟩
      rw [hfr]
      simp [hst, hcs]
    obtain ⟨q, hq⟩ := hex
    simp only [disc_metadata, hq]
    split <;> simp_all
  · intro allText origin net net2 hag
    have hfp : ∀ p ∈ OPENAPI_PROBE_PATHS,
        fetchPage net (origin ++ p) 3000 2 = fetchPage net2 (origin ++ p) 3000 2 := by
      intro p hp
      unfold fetchPage
      rw [show List.range 3 = [0, 1, 2] from rfl]
      simp only [List.foldl]
      rw [hag p hp 0 (by omega), hag p hp 1 (by omega), hag p hp 2 (by omega)]
    have hfind : (OPENAPI_PROBE_PATHS.find? fun q =>
        match fetchPage net (origin ++ q) 3000 2 with
        | some r => r.status == 200 && containsSubstr r.html "\"openapi\""
        | none => false) =
      (OPENAPI_PROBE_PATHS.find? fun q =>
        match fetchPage net2 (origin ++ q) 3000 2 with
        | some r => r.status == 200 && containsSubstr r.html "\"openapi\""
        | none => false) := by
      apply find?_congr
      intro q hq
      rw [hfp q hq]
    simp only [disc_metadata, hfind]

/-- Witness for claim C8: a probe that succeeds on its first attempt scores
2, and a fetcher that only answers 3000ms-timeout calls is
indistinguishable from one answering everything, showing the evaluator only
issues 3000ms probe calls. -/
theorem claim_C8_witness :
    (disc_metadata "" netC8w "https://acme.io").score = 2 ∧
    disc_metadata "" netC8t "https://acme.io" = disc_metadata "" netC8w "https://acme.io" :=
  ⟨claim_C8.1 "" netC8w "https://acme.io"
      ⟨"/openapi.json", by decide, { html := "\"openapi\"", status := 200 }, by decide, rfl,
        by decide⟩,
   claim_C8.2 "" "https://acme.io" netC8t netC8w (by decide)⟩

/-- Claim C9 counterexample: a Phase 3 success on a cross-subdomain page is
recorded keyed by its pathname, not by its absolute URL.  Here the page
fetched from `https://docs.x.com/api` (host `docs.x.com`, different from the
main origin host `x.com`) is stored under the key `/api`, and its absolute
URL is not a key of the Page map. -/
theorem claim_C9_counterexample :
    (runCrawl netC9 linksC9 "https://x.com" "x.com").pages = [("/", "H"), ("/api", "B")] ∧
    (runCrawl netC9 linksC9 "https://x.com" "x.com").crawledPages =
      ["https://x.com", "https://docs.x.com/api"] ∧
    parseUrl "https://docs.x.com/api" =
      some { scheme := "https", host := "docs.x.com", path := "/api" } ∧
    "https://docs.x.com/api" ∉
      (runCrawl netC9 linksC9 "https://x.com" "x.com").pages.map (fun p => p.1) := by
  decide

/-- Claim C9 (amended): every key of the final Page map arises either from a
Phase 1 seed — keyed by its pathname when the seed URL string starts with
the origin and by the full URL otherwise — or from a Phase 3 discovered
candidate, which is always keyed by its pathname, even when its host differs
from the main origin. -/
theorem claim_C9 (net : Fetcher) (links : LinkExtractor) (origin baseDomain k : String)
    (hk : k ∈ (runCrawl net links origin baseDomain).pages.map (fun p => p.1)) :
    (∃ u ∈ uniqueSeedsFor origin baseDomain,
        k = if strStartsWith u origin then urlPathOf u else u) ∨
    (∃ u ∈ discoveredOf net links origin baseDomain, k = urlPathOf u) := by
  unfold runCrawl at hk
  rcases phase3_keys net _ _ k hk with h1 | h2
  · left
    unfold phase1Result at h1
    rcases phase1_keys net origin _ _ k h1 with h0 | hex
    · simp at h0
    · exact hex
  · right; exact h2

/-- Witness for claim C9 at the cross-subdomain run, key `/api`. -/
theorem claim_C9_witness :
    (∃ u ∈ uniqueSeedsFor "https://x.com" "x.com",
        "/api" = if strStartsWith u "https://x.com" then urlPathOf u else u) ∨
    (∃ u ∈ discoveredOf netC9 linksC9 "https://x.com" "x.com", "/api" = urlPathOf u) :=
  claim_C9 netC9 linksC9 "https://x.com" "x.com" "/api" (by decide)

/-- Claim C10: the Phase 2 same-site test is a plain string-suffix check on
the www-stripped hostname.  With base domain `example.com`, the discovered
link `https://evilexample.com/api` — whose host `evilexample.com` is neither
`example.com` nor a subdomain of it — passes the filter, becomes a crawl
candidate, and is crawled. -/
theorem claim_C10 :
    "https://evilexample.com/api" ∈
      discoveredOf netC10 linksC10 "https://example.com" "example.com" ∧
    "https://evilexample.com/api" ∈
      (runCrawl netC10 linksC10 "https://example.com" "example.com").crawledPages ∧
    parseUrl "https://evilexample.com/api" =
      some { scheme := "https", host := "evilexample.com", path := "/api" } ∧
    strEndsWith "evilexample.com" "example.com" = true ∧
    "evilexample.com" ≠ "example.com" ∧
    strEndsWith "evilexample.com" ".example.com" = false := by
  decide
